import Mathlib

/-!
Shallow embedding of `custom_components/tech/climate.py` (Tech HVAC climate
platform for a home-automation hub).

Modelling conventions:
* JSON-like device snapshots are values of `JVal`; Python dict subscription
  `d[k]` is `JVal.getItem`, which raises `KeyError` on a missing key and
  `TypeError` when the subscripted value is not a dict, mirroring Python.
* Python exceptions are the error channel `PyErr`; a method that mutates
  `self` field by field and may raise mid-way is modelled as returning the
  (possibly partially updated) state together with `Option PyErr`
  (`none` = no exception), because in Python the assignments executed before
  the raise persist.
* Python float division of the tenths-of-a-degree integers by 10 is modelled
  as exact rational division (`ℚ`).
* Calls on the external API client (`get_zone`, `get_module_zones`,
  `set_const_temp`, `set_zone`) are parameters of the embedded methods: the
  outcome of a fetch is passed in as `Except PyErr _`, and an outbound command
  is modelled by returning the argument that the method forwards to the client,
  so theorems can speak about what was sent.
* `HVACAction` / `HVACMode` are the host enums restricted to the members this
  file uses; `SUPPORT_HVAC = [HVACMode.HEAT, HVACMode.OFF]`.
-/

namespace Tech

/-- A JSON-like value as found in the vendor zone snapshots. -/
inductive JVal where
  | null : JVal
  | num (n : Int) : JVal
  | str (s : String) : JVal
  | obj (fields : List (String × JVal)) : JVal

/-- Python exceptions that the embedded code can raise. -/
inductive PyErr where
  | keyError (k : String) : PyErr
  | typeError : PyErr
deriving DecidableEq, Repr

/-- Python `d[k]`: key lookup on a dict, `KeyError` when the key is absent,
`TypeError` when `d` is not a dict. -/
def JVal.getItem : JVal → String → Except PyErr JVal
  | .obj fields, k =>
      match List.lookup k fields with
      | some v => .ok v
      | none => .error (.keyError k)
  | _, _ => .error .typeError

/-- Python `v / 10` on a snapshot value: defined for numbers, `TypeError`
otherwise (in particular for `None` and strings). -/
def JVal.divTen : JVal → Except PyErr ℚ
  | .num n => .ok ((n : ℚ) / 10)
  | _ => .error .typeError

/-- Python `v == s` for a snapshot value `v` and a string literal `s`:
true only when `v` is that string. -/
def JVal.strEq : JVal → String → Bool
  | .str t, s => t == s
  | _, _ => false

/-- The host `HVACAction` members used by this platform. -/
inductive HVACAction where
  | heating : HVACAction
  | idle : HVACAction
  | off : HVACAction
deriving DecidableEq, Repr

/-- The host `HVACMode` members used by this platform (`SUPPORT_HVAC`). -/
inductive HVACMode where
  | heat : HVACMode
  | off : HVACMode
deriving DecidableEq, Repr

/-- The mutable state of one `TechThermostat` entity: the zone id captured at
construction and the cached derived attributes.  `_attr_name` and
`_attr_current_humidity` store the raw snapshot value, as the Python
assignments do. -/
structure TechThermostat where
  _id : JVal
  _attr_name : Option JVal
  _attr_target_temperature : Option ℚ
  _attr_current_temperature : Option ℚ
  _attr_current_humidity : Option JVal
  _attr_hvac_action : Option HVACAction
  _attr_hvac_mode : HVACMode

/-- One conditional update of a temperature attribute:
`if zone[k] is not None: attr = zone[k] / 10`.  Given the looked-up value,
returns the new attribute content or the division's exception. -/
def stepTemp (cur : Option ℚ) : JVal → Except PyErr (Option ℚ)
  | .null => .ok cur
  | v => (JVal.divTen v).map some

/-- The humidity update: `if zone["humidity"] is not None: attr = zone["humidity"]`. -/
def stepHumidity (cur : Option JVal) : JVal → Option JVal
  | .null => cur
  | v => some v

/-- The relay-state classification of `update_properties`:
`"on"` → heating, `"off"` → idle, anything else → off. -/
def classifyAction (v : JVal) : HVACAction :=
  if v.strEq "on" then HVACAction.heating
  else if v.strEq "off" then HVACAction.idle
  else HVACAction.off

/-- The zone-state classification of `update_properties`:
`mode in ["zoneOn", "noAlarm"]` → heat, anything else → off. -/
def classifyMode (v : JVal) : HVACMode :=
  if v.strEq "zoneOn" || v.strEq "noAlarm" then HVACMode.heat else HVACMode.off

/-- `TechThermostat.update_properties(self, device)`, statement by statement.
Returns the state after the call together with the exception it raised, if
any; assignments made before a raise persist in the returned state. -/
def update_properties (s : TechThermostat) (device : JVal) :
    TechThermostat × Option PyErr :=
  match device.getItem "description" with
  | .error e => (s, some e)
  | .ok desc =>
  match desc.getItem "name" with
  | .error e => (s, some e)
  | .ok nm =>
  let s1 := { s with _attr_name := some nm }
  match device.getItem "zone" with
  | .error e => (s1, some e)
  | .ok zone =>
  match zone.getItem "setTemperature" with
  | .error e => (s1, some e)
  | .ok st =>
  match stepTemp s1._attr_target_temperature st with
  | .error e => (s1, some e)
  | .ok tt =>
  let s2 := { s1 with _attr_target_temperature := tt }
  match zone.getItem "currentTemperature" with
  | .error e => (s2, some e)
  | .ok ct =>
  match stepTemp s2._attr_current_temperature ct with
  | .error e => (s2, some e)
  | .ok cc =>
  let s3 := { s2 with _attr_current_temperature := cc }
  match zone.getItem "humidity" with
  | .error e => (s3, some e)
  | .ok hu =>
  let s4 := { s3 with _attr_current_humidity := stepHumidity s3._attr_current_humidity hu }
  match zone.getItem "flags" with
  | .error e => (s4, some e)
  | .ok flags =>
  match flags.getItem "relayState" with
  | .error e => (s4, some e)
  | .ok rs =>
  let s5 := { s4 with _attr_hvac_action := some (classifyAction rs) }
  match zone.getItem "zoneState" with
  | .error e => (s5, some e)
  | .ok zs =>
  ({ s5 with _attr_hvac_mode := classifyMode zs }, none)

/-- The attribute values `__init__` assigns before calling
`update_properties`. -/
def initialAttrs (zid : JVal) : TechThermostat :=
  { _id := zid
    _attr_name := none
    _attr_target_temperature := none
    _attr_current_temperature := none
    _attr_current_humidity := none
    _attr_hvac_action := none
    _attr_hvac_mode := HVACMode.off }

/-- `TechThermostat.__init__(self, device, api, udid)`: reads
`device["zone"]["id"]` and `device["description"]["name"]`, starts from the
documented initial attribute values, then runs `update_properties`; any
exception (including one raised inside `update_properties`) propagates out of
the constructor. -/
def TechThermostat.init (device : JVal) : Except PyErr TechThermostat :=
  match device.getItem "zone" with
  | .error e => .error e
  | .ok zone =>
  match zone.getItem "id" with
  | .error e => .error e
  | .ok zid =>
  match device.getItem "description" with
  | .error e => .error e
  | .ok desc =>
  match desc.getItem "name" with
  | .error e => .error e
  | .ok _nm =>
  match update_properties (initialAttrs zid) device with
  | (_, some e) => .error e
  | (s, none) => .ok s

/-- `TechThermostat.async_update(self)`: the try block covers both the fetch
(`get_zone`, whose outcome is the parameter `fetch`) and `update_properties`;
every exception is caught and logged, so the call is total.  On a fetch error
the state is untouched; on an `update_properties` exception the partially
updated state persists. -/
def async_update (s : TechThermostat) (fetch : Except PyErr JVal) :
    TechThermostat :=
  match fetch with
  | .error _ => s
  | .ok device => (update_properties s device).1

/-- `TechThermostat.async_set_temperature(self, **kwargs)`:
`kwargs.get(ATTR_TEMPERATURE)` is the parameter (`none` when absent).  Second
component of the result: the value forwarded to `set_const_temp`, `none` when
no call was made.  Errors from the client are caught and logged. -/
def async_set_temperature (s : TechThermostat) (kw_temperature : Option ℚ)
    (set_const_temp : ℚ → Except PyErr Unit) : TechThermostat × Option ℚ :=
  match kw_temperature with
  | none => (s, none)
  | some t =>
    match set_const_temp t with
    | .ok _ => (s, some t)
    | .error _ => (s, some t)

/-- `TechThermostat.async_set_hvac_mode(self, hvac_mode)`: sends
`hvac_mode == HVACMode.HEAT` to `set_zone`; errors from the client are caught
and logged.  Second component of the result: the boolean forwarded to
`set_zone`. -/
def async_set_hvac_mode (s : TechThermostat) (hvac_mode : String)
    (set_zone : Bool → Except PyErr Unit) : TechThermostat × Bool :=
  let flag := hvac_mode == "heat"
  match set_zone flag with
  | .ok _ => (s, flag)
  | .error _ => (s, flag)

/-- Construction of one `TechThermostat` per zone snapshot, in iteration
order; the first constructor exception aborts the whole construction (it
propagates into `async_setup_entry`'s except clause). -/
def constructAll : List JVal → Except PyErr (List TechThermostat)
  | [] => .ok []
  | d :: ds =>
    match TechThermostat.init d with
    | .error e => .error e
    | .ok a =>
      match constructAll ds with
      | .error e => .error e
      | .ok rest => .ok (a :: rest)

/-- `async_setup_entry(hass, entry, async_add_entities)`: the outcome of
`get_module_zones` is the parameter `fetch` (the zone snapshots in iteration
order of the returned mapping).  `async_add_entities` is a host-runtime
callback external to this repository; registration is modelled as the list of
adapters handed to it, empty when the try block raised.  Returns the success
boolean together with that list. -/
def async_setup_entry (fetch : Except PyErr (List JVal)) :
    Bool × List TechThermostat :=
  match fetch with
  | .error _ => (false, [])
  | .ok zones =>
    match constructAll zones with
    | .ok adapters => (true, adapters)
    | .error _ => (false, [])

/-- The access path `device["zone"][k]` as a standalone lookup, used to state
properties of snapshots. -/
def zonePath (d : JVal) (k : String) : Except PyErr JVal :=
  match d.getItem "zone" with
  | .error e => .error e
  | .ok z => z.getItem k

/-- The access path `device["zone"]["flags"]["relayState"]`. -/
def relayStatePath (d : JVal) : Except PyErr JVal :=
  match zonePath d "flags" with
  | .error e => .error e
  | .ok f => f.getItem "relayState"

/-- A looked-up snapshot field is "absent or null": the lookup fails (missing
key or non-dict) or yields JSON null. -/
def isNullOrAbsent : Except PyErr JVal → Bool
  | .ok .null => true
  | .error _ => true
  | .ok _ => false

/-! ## Helper lemmas -/

/-- The zone-state classification yields heat exactly on the two strings the
source tests for. -/
lemma classifyMode_eq_heat_iff (v : JVal) :
    classifyMode v = HVACMode.heat ↔ (v = .str "zoneOn" ∨ v = .str "noAlarm") := by
  cases v <;> simp [classifyMode, JVal.strEq]
  tauto

/-- Full case analysis of the relay-state classification. -/
lemma classifyAction_cases (v : JVal) :
    (classifyAction v = HVACAction.heating ↔ v = .str "on") ∧
    (classifyAction v = HVACAction.idle ↔ v = .str "off") ∧
    (v ≠ .str "on" → v ≠ .str "off" → classifyAction v = HVACAction.off) := by
  cases v <;> simp only [classifyAction, JVal.strEq] <;>
    first
      | (rename_i t
         by_cases h1 : t = "on" <;> by_cases h2 : t = "off" <;> simp_all)
      | simp

/-- A successful `constructAll` produces exactly one adapter per zone
snapshot. -/
lemma constructAll_length (zones : List JVal) :
    ∀ adapters : List TechThermostat, constructAll zones = Except.ok adapters →
      adapters.length = zones.length := by
  induction zones with
  | nil =>
    intro adapters h
    simp only [constructAll] at h
    cases h
    rfl
  | cons d ds ih =>
    intro adapters h
    simp only [constructAll] at h
    cases hinit : TechThermostat.init d with
    | error e => simp [hinit] at h
    | ok a =>
      simp only [hinit] at h
      cases hrest : constructAll ds with
      | error e => simp [hrest] at h
      | ok rest =>
        simp only [hrest] at h
        cases h
        simp [ih rest hrest]

/-- On success, the i-th adapter of `constructAll` is the constructor's result
on the i-th zone snapshot. -/
lemma constructAll_get (zones : List JVal) :
    ∀ adapters : List TechThermostat, constructAll zones = Except.ok adapters →
      ∀ i (hi : i < zones.length) (hj : i < adapters.length),
        TechThermostat.init (zones.get ⟨i, hi⟩) = Except.ok (adapters.get ⟨i, hj⟩) := by
  induction zones with
  | nil =>
    intro adapters h i hi hj
    simp at hi
  | cons d ds ih =>
    intro adapters h i hi hj
    simp only [constructAll] at h
    cases hinit : TechThermostat.init d with
    | error e => simp [hinit] at h
    | ok a =>
      simp only [hinit] at h
      cases hrest : constructAll ds with
      | error e => simp [hrest] at h
      | ok rest =>
        simp only [hrest] at h
        cases h
        cases i with
        | zero => simpa using hinit
        | succ n =>
          simp only [List.get]
          exact ih rest hrest n (by simpa using hi) (by simpa using hj)

/-! ## Concrete snapshots and states used in scenario theorems -/

/-- The spec's scenario snapshot: setTemperature 215, currentTemperature 198,
humidity 45, relayState "on", zoneState "zoneOn". -/
def d5 : JVal := .obj
  [("description", .obj [("name", .str "Zone 1")]),
   ("zone", .obj
     [("id", .num 1),
      ("setTemperature", .num 215),
      ("currentTemperature", .num 198),
      ("humidity", .num 45),
      ("flags", .obj [("relayState", .str "on")]),
      ("zoneState", .str "zoneOn")])]

/-- A snapshot whose flags dict lacks the "relayState" key (all optional
values null, so the derivation reaches the relay-state access). -/
def dC3 : JVal := .obj
  [("description", .obj [("name", .str "Z")]),
   ("zone", .obj
     [("id", .num 7),
      ("setTemperature", .null),
      ("currentTemperature", .null),
      ("humidity", .null),
      ("flags", .obj []),
      ("zoneState", .str "zoneOn")])]

/-- A prior adapter state whose cached HVAC action is heating. -/
def sC3 : TechThermostat :=
  { _id := .num 7
    _attr_name := some (.str "Z")
    _attr_target_temperature := some (((230 : ℤ) : ℚ) / 10)
    _attr_current_temperature := some (((221 : ℤ) : ℚ) / 10)
    _attr_current_humidity := some (.num 40)
    _attr_hvac_action := some HVACAction.heating
    _attr_hvac_mode := HVACMode.heat }

/-- A well-formed snapshot with relayState "on", used to exercise the
successful branch of the relay-state classification. -/
def dC3b : JVal := .obj
  [("description", .obj [("name", .str "Zb")]),
   ("zone", .obj
     [("id", .num 8),
      ("setTemperature", .null),
      ("currentTemperature", .null),
      ("humidity", .null),
      ("flags", .obj [("relayState", .str "on")]),
      ("zoneState", .str "zoneOff")])]

/-- A snapshot whose three optional values are all null, used to witness the
no-regression property. -/
def dC2 : JVal := .obj
  [("description", .obj [("name", .str "W")]),
   ("zone", .obj
     [("id", .num 3),
      ("setTemperature", .null),
      ("currentTemperature", .null),
      ("humidity", .null),
      ("flags", .obj [("relayState", .str "off")]),
      ("zoneState", .str "noAlarm")])]

/-- A prior adapter state with all optional attributes populated. -/
def sC2 : TechThermostat :=
  { _id := .num 3
    _attr_name := some (.str "W")
    _attr_target_temperature := some (((210 : ℤ) : ℚ) / 10)
    _attr_current_temperature := some (((195 : ℤ) : ℚ) / 10)
    _attr_current_humidity := some (.num 55)
    _attr_hvac_action := some HVACAction.idle
    _attr_hvac_mode := HVACMode.heat }

/-- A snapshot that `get_zone` can deliver but whose zone dict lacks the
"flags" key, so `update_properties` raises after the temperature and humidity
assignments. -/
def d10 : JVal := .obj
  [("description", .obj [("name", .str "New")]),
   ("zone", .obj
     [("id", .num 2),
      ("setTemperature", .num 220),
      ("currentTemperature", .num 200),
      ("humidity", .num 50)])]

/-- The adapter state before the refresh that receives `d10`. -/
def s10 : TechThermostat :=
  { _id := .num 2
    _attr_name := some (.str "Old")
    _attr_target_temperature := some (((180 : ℤ) : ℚ) / 10)
    _attr_current_temperature := some (((175 : ℤ) : ℚ) / 10)
    _attr_current_humidity := some (.num 45)
    _attr_hvac_action := some HVACAction.idle
    _attr_hvac_mode := HVACMode.heat }

/-- A well-formed snapshot used to witness the setup routine's success path. -/
def dC6 : JVal := .obj
  [("description", .obj [("name", .str "Salon")]),
   ("zone", .obj
     [("id", .num 100),
      ("setTemperature", .num 200),
      ("currentTemperature", .num 190),
      ("humidity", .num 40),
      ("flags", .obj [("relayState", .str "off")]),
      ("zoneState", .str "zoneOff")])]

/-- The adapter that `TechThermostat.init` builds from `dC6`. -/
def aC6 : TechThermostat :=
  { _id := .num 100
    _attr_name := some (.str "Salon")
    _attr_target_temperature := some (((200 : ℤ) : ℚ) / 10)
    _attr_current_temperature := some (((190 : ℤ) : ℚ) / 10)
    _attr_current_humidity := some (.num 40)
    _attr_hvac_action := some HVACAction.idle
    _attr_hvac_mode := HVACMode.off }

/-- A well-formed snapshot whose zone state is "zoneOn", used to witness the
HVAC-mode derivation. -/
def dC4 : JVal := .obj
  [("description", .obj [("name", .str "M")]),
   ("zone", .obj
     [("id", .num 4),
      ("setTemperature", .null),
      ("currentTemperature", .null),
      ("humidity", .null),
      ("flags", .obj [("relayState", .str "on")]),
      ("zoneState", .str "zoneOn")])]

/-! ## Claim theorems -/

/-- C1: when the API client's `get_zone` raises, `async_update` catches the
error (the embedded `async_update` is total, so nothing propagates) and the
adapter state — in particular the name and the five derived fields — is
exactly what it was before the call. -/
theorem async_update_fetch_error_frame (s : TechThermostat) (e : PyErr) :
    async_update s (Except.error e) = s ∧
    (async_update s (Except.error e))._attr_name = s._attr_name ∧
    (async_update s (Except.error e))._attr_target_temperature = s._attr_target_temperature ∧
    (async_update s (Except.error e))._attr_current_temperature = s._attr_current_temperature ∧
    (async_update s (Except.error e))._attr_current_humidity = s._attr_current_humidity ∧
    (async_update s (Except.error e))._attr_hvac_action = s._attr_hvac_action ∧
    (async_update s (Except.error e))._attr_hvac_mode = s._attr_hvac_mode :=
  ⟨rfl, rfl, rfl, rfl, rfl, rfl, rfl⟩

/-- C2: when the zone's setTemperature is absent or null, `update_properties`
leaves the cached target temperature untouched; likewise for
currentTemperature and humidity with their respective caches. -/
theorem update_properties_no_regression (s : TechThermostat) (d : JVal) :
    (isNullOrAbsent (zonePath d "setTemperature") = true →
      (update_properties s d).1._attr_target_temperature = s._attr_target_temperature) ∧
    (isNullOrAbsent (zonePath d "currentTemperature") = true →
      (update_properties s d).1._attr_current_temperature = s._attr_current_temperature) ∧
    (isNullOrAbsent (zonePath d "humidity") = true →
      (update_properties s d).1._attr_current_humidity = s._attr_current_humidity) := by
  refine ⟨?_, ?_, ?_⟩ <;> intro h <;>
    (unfold zonePath at h
     simp only [update_properties]
     repeat' split
     all_goals try simp_all [isNullOrAbsent, stepTemp, stepHumidity, JVal.divTen]
     all_goals (split at h <;> simp_all))

/-- C2 witness: on the concrete snapshot `dC2` with all three values null,
starting from `sC2`, the three caches are unchanged. -/
theorem update_properties_no_regression_witness :
    (update_properties sC2 dC2).1._attr_target_temperature = sC2._attr_target_temperature ∧
    (update_properties sC2 dC2).1._attr_current_temperature = sC2._attr_current_temperature ∧
    (update_properties sC2 dC2).1._attr_current_humidity = sC2._attr_current_humidity :=
  ⟨(update_properties_no_regression sC2 dC2).1 rfl,
   (update_properties_no_regression sC2 dC2).2.1 rfl,
   (update_properties_no_regression sC2 dC2).2.2 rfl⟩

/-- C3 counterexample: on the snapshot `dC3` whose flags dict lacks the
"relayState" key, the derivation (run from a state whose cached action is
heating) does not set the HVAC action to off, contradicting the claim's
"missing/absent → off" case: the access raises `KeyError` and the cached
action stays heating. -/
theorem hvac_action_missing_relay_not_off :
    relayStatePath dC3 = Except.error (PyErr.keyError "relayState") ∧
    (update_properties sC3 dC3).1._attr_hvac_action = some HVACAction.heating ∧
    (update_properties sC3 dC3).1._attr_hvac_action ≠ some HVACAction.off ∧
    (update_properties sC3 dC3).2 = some (PyErr.keyError "relayState") :=
  ⟨rfl, rfl, by decide, rfl⟩

/-- C3 amended: when the derivation completes, the HVAC action is heating for
relay state "on", idle for "off", and off for any other present value
(including null); when the relay-state lookup fails (missing key or non-dict),
the derivation raises instead and the cached action is left unchanged. -/
theorem hvac_action_amended_spec (s : TechThermostat) (d : JVal) :
    (∀ v, (update_properties s d).2 = none → relayStatePath d = Except.ok v →
      (update_properties s d).1._attr_hvac_action = some (classifyAction v)) ∧
    (∀ v, (classifyAction v = HVACAction.heating ↔ v = .str "on") ∧
          (classifyAction v = HVACAction.idle ↔ v = .str "off") ∧
          (v ≠ .str "on" → v ≠ .str "off" → classifyAction v = HVACAction.off)) ∧
    (∀ e, relayStatePath d = Except.error e →
      (update_properties s d).1._attr_hvac_action = s._attr_hvac_action ∧
      (update_properties s d).2 ≠ none) := by
  refine ⟨?_, fun v => classifyAction_cases v, ?_⟩
  · intro v
    unfold relayStatePath zonePath
    simp only [update_properties]
    repeat' split
    all_goals intro h1 h2
    all_goals simp_all
  · intro e
    unfold relayStatePath zonePath
    simp only [update_properties]
    repeat' split
    all_goals intro h
    all_goals simp_all

/-- C3 amended witness: the successful branch on `dC3b` (relayState "on")
yields the classified action, and the failing branch on `dC3` leaves the
cached action unchanged. -/
theorem hvac_action_amended_spec_witness :
    (update_properties sC3 dC3b).1._attr_hvac_action = some (classifyAction (JVal.str "on")) ∧
    (update_properties sC3 dC3).1._attr_hvac_action = sC3._attr_hvac_action :=
  ⟨(hvac_action_amended_spec sC3 dC3b).1 (JVal.str "on") rfl rfl,
   ((hvac_action_amended_spec sC3 dC3).2.2 (PyErr.keyError "relayState") rfl).1⟩

/-- C4: for every snapshot the derivation processes to completion, the HVAC
mode is heat exactly when the zone state is "zoneOn" or "noAlarm", and off for
any other value. -/
theorem hvac_mode_heat_iff (s : TechThermostat) (d : JVal)
    (h : (update_properties s d).2 = none) :
    ((update_properties s d).1._attr_hvac_mode = HVACMode.heat ↔
      (zonePath d "zoneState" = Except.ok (JVal.str "zoneOn") ∨
       zonePath d "zoneState" = Except.ok (JVal.str "noAlarm"))) ∧
    (¬(zonePath d "zoneState" = Except.ok (JVal.str "zoneOn") ∨
       zonePath d "zoneState" = Except.ok (JVal.str "noAlarm")) →
      (update_properties s d).1._attr_hvac_mode = HVACMode.off) := by
  have hiff : (update_properties s d).1._attr_hvac_mode = HVACMode.heat ↔
      (zonePath d "zoneState" = Except.ok (JVal.str "zoneOn") ∨
       zonePath d "zoneState" = Except.ok (JVal.str "noAlarm")) := by
    revert h
    unfold zonePath
    simp only [update_properties]
    repeat' split
    all_goals intro h1
    all_goals simp_all [classifyMode_eq_heat_iff]
  refine ⟨hiff, ?_⟩
  intro hn
  cases hm : (update_properties s d).1._attr_hvac_mode with
  | heat => exact absurd (hiff.mp hm) hn
  | off => rfl

/-- C4 witness: on the concrete snapshot `dC4` (zoneState "zoneOn") the
derivation completes and the mode is heat. -/
theorem hvac_mode_heat_iff_witness :
    (update_properties sC2 dC4).1._attr_hvac_mode = HVACMode.heat :=
  (hvac_mode_heat_iff sC2 dC4 rfl).1.mpr (Or.inl rfl)

/-- C5: the spec's scenario snapshot, derived from the constructor's initial
attribute values, yields target 21.5 °C, current 19.8 °C, humidity 45, action
heating and mode heat, with no exception. -/
theorem scenario_snapshot_derivation :
    (update_properties (initialAttrs (JVal.num 1)) d5).2 = none ∧
    (update_properties (initialAttrs (JVal.num 1)) d5).1._attr_target_temperature = some (21.5 : ℚ) ∧
    (update_properties (initialAttrs (JVal.num 1)) d5).1._attr_current_temperature = some (19.8 : ℚ) ∧
    (update_properties (initialAttrs (JVal.num 1)) d5).1._attr_current_humidity = some (JVal.num 45) ∧
    (update_properties (initialAttrs (JVal.num 1)) d5).1._attr_hvac_action = some HVACAction.heating ∧
    (update_properties (initialAttrs (JVal.num 1)) d5).1._attr_hvac_mode = HVACMode.heat := by
  refine ⟨rfl, ?_, ?_, rfl, rfl, rfl⟩
  · have h : (update_properties (initialAttrs (JVal.num 1)) d5).1._attr_target_temperature =
        some (((215 : ℤ) : ℚ) / 10) := rfl
    rw [h]
    norm_num
  · have h : (update_properties (initialAttrs (JVal.num 1)) d5).1._attr_current_temperature =
        some (((198 : ℤ) : ℚ) / 10) := rfl
    rw [h]
    norm_num

/-- C6: the setup routine returns False with no registered entity when the
zone fetch fails, and likewise when any constructor inside the try block
raises; when the fetch succeeds and every constructor succeeds it returns True
and registers exactly one adapter per zone snapshot, in order. -/
theorem async_setup_entry_spec (fetch : Except PyErr (List JVal)) :
    (∀ e, fetch = Except.error e → async_setup_entry fetch = (false, [])) ∧
    (∀ zones, fetch = Except.ok zones →
      (∀ e, constructAll zones = Except.error e → async_setup_entry fetch = (false, [])) ∧
      (∀ adapters, constructAll zones = Except.ok adapters →
        async_setup_entry fetch = (true, adapters) ∧
        adapters.length = zones.length ∧
        ∀ i (hi : i < zones.length) (hj : i < adapters.length),
          TechThermostat.init (zones.get ⟨i, hi⟩) = Except.ok (adapters.get ⟨i, hj⟩))) := by
  refine ⟨?_, ?_⟩
  · intro e he
    subst he
    rfl
  · intro zones hz
    subst hz
    refine ⟨?_, ?_⟩
    · intro e hce
      simp [async_setup_entry, hce]
    · intro adapters hca
      exact ⟨by simp [async_setup_entry, hca],
             constructAll_length zones adapters hca,
             constructAll_get zones adapters hca⟩

/-- C6 witness: a failed fetch yields False and no entity; the fetch of the
single snapshot `dC6` yields True with exactly the one adapter `aC6`. -/
theorem async_setup_entry_spec_witness :
    async_setup_entry (Except.error PyErr.typeError) = (false, []) ∧
    async_setup_entry (Except.ok [dC6]) = (true, [aC6]) :=
  ⟨(async_setup_entry_spec (Except.error PyErr.typeError)).1 PyErr.typeError rfl,
   (((async_setup_entry_spec (Except.ok [dC6])).2 [dC6] rfl).2 [aC6] rfl).1⟩

/-- C7: `async_set_hvac_mode` sends `set_zone` the boolean
`hvac_mode == "heat"` — true exactly when the requested mode is heat, false
for "off" and any unrecognized value — independently of the cached mode, and
the local state is unchanged whether the call succeeds or raises. -/
theorem async_set_hvac_mode_spec (s : TechThermostat) (hvac_mode : String)
    (set_zone : Bool → Except PyErr Unit) :
    async_set_hvac_mode s hvac_mode set_zone = (s, hvac_mode == "heat") ∧
    ((hvac_mode == "heat") = true ↔ hvac_mode = "heat") := by
  refine ⟨?_, by simp⟩
  simp only [async_set_hvac_mode]
  split <;> rfl

/-- C8: `async_set_temperature` with no temperature keyword makes no API call
(the forwarded value is `none`) and changes no cached field. -/
theorem async_set_temperature_noop (s : TechThermostat)
    (set_const_temp : ℚ → Except PyErr Unit) :
    async_set_temperature s none set_const_temp = (s, none) :=
  rfl

/-- C9: `async_set_temperature` with temperature v forwards exactly v to
`set_const_temp` — no ×10 rescaling, unlike the read path — and the cached
target temperature (indeed the whole state) is unchanged whether the call
succeeds or raises. -/
theorem async_set_temperature_forwards (s : TechThermostat) (v : ℚ)
    (set_const_temp : ℚ → Except PyErr Unit) :
    async_set_temperature s (some v) set_const_temp = (s, some v) := by
  simp only [async_set_temperature]
  split <;> rfl

/-- C10: a snapshot that `get_zone` can return successfully (zone dict without
the "flags" key) makes `update_properties` raise mid-way; `async_update`
catches it and returns normally, but the adapter is left divided: name,
temperatures and humidity hold the new snapshot's values while action and mode
keep their prior ones. -/
theorem async_update_midway_failure_frame :
    (update_properties s10 d10).2 = some (PyErr.keyError "flags") ∧
    (async_update s10 (Except.ok d10))._attr_name = some (JVal.str "New") ∧
    (async_update s10 (Except.ok d10))._attr_target_temperature = some (22 : ℚ) ∧
    (async_update s10 (Except.ok d10))._attr_current_temperature = some (20 : ℚ) ∧
    (async_update s10 (Except.ok d10))._attr_current_humidity = some (JVal.num 50) ∧
    (async_update s10 (Except.ok d10))._attr_hvac_action = s10._attr_hvac_action ∧
    (async_update s10 (Except.ok d10))._attr_hvac_mode = s10._attr_hvac_mode := by
  refine ⟨rfl, rfl, ?_, ?_, rfl, rfl, rfl⟩
  · have h : (async_update s10 (Except.ok d10))._attr_target_temperature =
        some (((220 : ℤ) : ℚ) / 10) := rfl
    rw [h]
    norm_num
  · have h : (async_update s10 (Except.ok d10))._attr_current_temperature =
        some (((200 : ℤ) : ℚ) / 10) := rfl
    rw [h]
    norm_num

end Tech
